import Mathlib

/-!
# Verification of the printtopdf screenshot-capture core

Shallow embedding of the repository's capture pipeline:

* `src/utils.py`   — `clean_domain_name`
* `src/crawler.py` — `WebCrawler._is_resource_url`,
  `WebCrawler.capture_screenshot`,
  `WebCrawler._capture_full_screenshot_with_stitching`,
  `WebCrawler._pause_videos_and_animations`

Strings from the Python source are embedded as `List Char`.  The live
browser session (Selenium driver) is external to the repository, so it is
modelled as an oracle (`Browser`): a record of total functions giving the
value (or the raised Python exception class) returned by each driver call,
indexed by how many times that particular call site has run.  PIL images
are modelled by their pixel dimensions; the stitched composite additionally
records the pasted tiles, with PIL's crop-at-the-borders paste semantics
expressed when computing the rows a paste actually covers.
-/

/-! ## List-of-characters helpers (Python `str` operations) -/

/-- `leadMatch p s` : does `s` start with `p`?  (Python `str.startswith`). -/
def leadMatch : List Char → List Char → Bool
  | [], _ => true
  | _ :: _, [] => false
  | a :: as, b :: bs => a == b && leadMatch as bs

/-- `tailMatch p s` : does `s` end with `p`?  (Python `str.endswith`). -/
def tailMatch (p s : List Char) : Bool :=
  leadMatch p.reverse s.reverse

/-- `occursIn n h` : does `n` occur as a contiguous substring of `h`?
(Python `n in h`, `h.indexOf(n) > -1` in the injected JavaScript). -/
def occursIn (needle : List Char) : List Char → Bool
  | [] => leadMatch needle []
  | c :: t => leadMatch needle (c :: t) || occursIn needle t

/-- Python `str.lower()` restricted to its effect relevant here: ASCII
uppercase letters are mapped to lowercase. -/
def lowerL (s : List Char) : List Char := s.map Char.toLower

/-! ## `src/utils.py` : `clean_domain_name` -/

/-- The character class of the regex `[^a-z0-9.-]` in `clean_domain_name`
(characters that are KEPT; all others are replaced by an underscore). -/
def domainCharKept (c : Char) : Bool :=
  ('a' ≤ c && c ≤ 'z') || ('0' ≤ c && c ≤ '9') || c == '.' || c == '-'

/-- `clean_domain_name` from `src/utils.py`: lowercase, strip a leading
`www.`, then replace every character outside `[a-z0-9.-]` by `_`. -/
def clean_domain_name (domain : List Char) : List Char :=
  let d := lowerL domain
  let d := if leadMatch "www.".toList d then d.drop 4 else d
  d.map (fun c => if domainCharKept c then c else '_')

/-! ## `src/crawler.py` : `_is_resource_url` -/

/-- A URL as seen by `_is_resource_url`, reduced to the output of
`urllib.parse.urlparse`: only the `path` component is inspected. -/
structure Url where
  path : List Char
deriving DecidableEq, Repr

/-- The `static_extensions` list of `_is_resource_url`. -/
def staticExtensions : List (List Char) :=
  [".png".toList, ".jpg".toList, ".jpeg".toList, ".gif".toList, ".bmp".toList,
   ".svg".toList, ".ico".toList, ".webp".toList,
   ".css".toList, ".js".toList, ".json".toList, ".xml".toList, ".pdf".toList,
   ".doc".toList, ".docx".toList, ".xls".toList, ".xlsx".toList,
   ".zip".toList, ".rar".toList, ".tar".toList, ".gz".toList, ".mp3".toList,
   ".mp4".toList, ".avi".toList, ".mov".toList, ".wmv".toList,
   ".woff".toList, ".woff2".toList, ".ttf".toList, ".eot".toList, ".otf".toList]

/-- The `static_dirs` list of `_is_resource_url`. -/
def staticDirs : List (List Char) :=
  ["/wp-content/uploads/".toList, "/images/".toList, "/img/".toList,
   "/css/".toList, "/js/".toList, "/assets/".toList, "/static/".toList,
   "/media/".toList, "/fonts/".toList, "/downloads/".toList]

/-- `WebCrawler._is_resource_url` (src/crawler.py:139-175): the lowercased
URL path either ends with one of the static extensions or contains one of
the well-known static directory segments. -/
def is_resource_url (u : Url) : Bool :=
  let path := lowerL u.path
  staticExtensions.any (fun ext => tailMatch ext path)
  || staticDirs.any (fun dir => occursIn dir path)

/-! ## The browser session oracle

`capture_screenshot` drives an external Selenium session.  Each driver
call either returns a value or raises a Python exception; the relevant
exception classes are `TimeoutException` (a subclass of
`WebDriverException`), other `WebDriverException`s, and everything else.
The `except` clauses of `capture_screenshot` appear in exactly that order,
so a raised exception is dispatched to the first matching class. -/

/-- Python exception classes distinguished by `capture_screenshot`'s
`except` clauses, in dispatch order. -/
inductive PyErr
  | timeout
  | webdriver
  | other
deriving DecidableEq, Repr

/-- Oracle for the Selenium driver.  Fallible call sites are indexed by
attempt number (0 = the main `try` body, 1 = the `TimeoutException`
handler, 2 = the `WebDriverException` handler); `none` means the call
returned normally, `some e` that it raised `e`.  Snapshot and scroll
read-backs are modelled as total functions chosen by the oracle. -/
structure Browser where
  /-- result of the k-th `driver.get(url)` call. -/
  navigate : Nat → Option PyErr
  /-- residual error leaking out of `_wait_for_page_load_completion`
  (its first stage catches only `TimeoutException`, so other driver
  errors propagate). -/
  waitLoadErr : Option PyErr
  /-- residual error of the k-th `_pause_videos_and_animations` call
  (it swallows `JavascriptException` only). -/
  pauseErr : Nat → Option PyErr
  /-- error of the k-th `_get_page_dimensions` call. -/
  dimsErr : Nat → Option PyErr
  /-- value of the k-th `_get_page_dimensions` call: (width, height). -/
  dims : Nat → Nat × Nat
  /-- Firefox `get_full_page_screenshot_as_png`: `some (w, h)` on
  success, `none` when it raises (the error is swallowed and capture
  falls through to the manual method). -/
  fullPage : Option (Nat × Nat)
  /-- size of the image decoded from the k-th single
  `get_screenshot_as_png` call (outside the stitching loop). -/
  shot : Nat → Nat × Nat
  /-- `window.pageYOffset` read back in the k-th stitching iteration. -/
  scrollBack : Nat → Nat
  /-- size of the tile captured in the k-th stitching iteration. -/
  stitchShot : Nat → Nat × Nat
  /-- result of `_init_browser` in the `WebDriverException` handler
  (it re-raises its own failures). -/
  initErr : Option PyErr

/-- Crawler configuration relevant to `capture_screenshot`
(constructor arguments of `WebCrawler`). -/
structure CrawlerCfg where
  /-- `browser_type.lower() == "firefox"`. -/
  firefox : Bool
  waitTime : Nat
  extraWait : Nat
  pageLoadTimeout : Nat
deriving DecidableEq, Repr

/-! ## Images and the stitched composite -/

/-- One tile pasted by the stitching loop: the requested scroll offset of
its iteration, the achieved scroll position `pos` it was pasted at
(`full_screenshot.paste(screenshot, (0, current_scroll_position))`), and
the tile image's size. -/
structure Tile where
  req : Nat
  pos : Nat
  w : Nat
  h : Nat
deriving DecidableEq, Repr

/-- The composite raster built by `_capture_full_screenshot_with_stitching`:
`Image.new('RGB', (total_width, total_height))` plus the tiles pasted into
it.  PIL's `paste` writes pixels inside the canvas and crops anything that
sticks out; it never changes the canvas size, so `width`/`height` are
fields that `paste` leaves untouched. -/
structure CImg where
  width : Nat
  height : Nat
  tiles : List Tile
deriving DecidableEq, Repr

/-- PIL `Image.paste` at `(0, t.pos)`: records the tile; the canvas keeps
its size (out-of-canvas pixels are cropped). -/
def CImg.paste (c : CImg) (t : Tile) : CImg :=
  { c with tiles := c.tiles ++ [t] }

/-- The rows of the composite actually written by the pastes, with PIL's
cropping applied: a tile pasted at `pos` with height `h` writes rows
`[pos, min (pos + h) height)`. -/
def coveredRows (c : CImg) : Finset Nat :=
  c.tiles.foldr (fun t acc => Finset.Ico t.pos (min (t.pos + t.h) c.height) ∪ acc) ∅

/-- The image value returned by `capture_screenshot`. -/
inductive PImage
  /-- an image decoded from screenshot bytes, of the size the driver
  produced (native full-page shot or single viewport shot). -/
  | shot (w h : Nat)
  /-- `Image.new('RGB', (w, h), color='white')` — the blank placeholder. -/
  | blankRGB (w h : Nat)
  /-- the composite returned by the stitching method. -/
  | composite (c : CImg)
deriving DecidableEq, Repr

/-- Observable driver interactions, for stating which calls a capture
performs (navigation, window resizing, timeout changes, …). -/
inductive Ev
  /-- `driver.get(url)` -/
  | nav
  /-- `driver.set_window_size(w, h)` -/
  | setWindow (w h : Nat)
  /-- `driver.set_page_load_timeout(t)` -/
  | setTimeout (t : Nat)
  /-- `window.scrollTo(0, 0)` -/
  | scrollTop
  /-- a single `get_screenshot_as_png` call (outside stitching) -/
  | shotEv
  /-- entry into `_capture_full_screenshot_with_stitching` -/
  | stitchEv
deriving DecidableEq, Repr

/-! ## `_capture_full_screenshot_with_stitching` (src/crawler.py:623-682) -/

/-- `viewport_height = 1080` in `_capture_full_screenshot_with_stitching`. -/
def stitchViewportH : Nat := 1080

/-- `overlap = 300` in `_capture_full_screenshot_with_stitching`. -/
def stitchOverlap : Nat := 300

/-- The `while offset < total_height` loop of
`_capture_full_screenshot_with_stitching`, with an explicit fuel
parameter standing for the (provably sufficient, see
`stitchLoop_fuel_stable`) iteration budget.  Each iteration scrolls to
`offset`, reads back the achieved position, breaks if it equals the
previous read, otherwise captures a tile, pastes it at the achieved
position, and advances `offset` by `viewport_height - overlap`. -/
def stitchLoop (br : Browser) (totalHeight : Nat) :
    Nat → Nat → Nat → Int → CImg → CImg
  | 0, _, _, _, c => c
  | fuel + 1, k, offset, lastScrolledPos, c =>
    if offset < totalHeight then
      let currentScrollPosition := br.scrollBack k
      if (currentScrollPosition : Int) = lastScrolledPos then c
      else
        stitchLoop br totalHeight fuel (k + 1)
          (offset + (stitchViewportH - stitchOverlap))
          (currentScrollPosition : Int)
          (c.paste ⟨offset, currentScrollPosition,
                    (br.stitchShot k).1, (br.stitchShot k).2⟩)
    else c

/-- `_capture_full_screenshot_with_stitching`: set the viewport to
`(min 1920 W, 1080)`, create the `(W, H)` canvas, run the loop from
`offset = 0`, `last_scrolled_pos = -1`.  Fuel `H + 1` is enough for the
loop to reach its exit condition (see `stitchLoop_fuel_stable`). -/
def capture_full_screenshot_with_stitching (br : Browser) (totalWidth totalHeight : Nat) :
    CImg × List Ev :=
  (stitchLoop br totalHeight (totalHeight + 1) 0 0 (-1) ⟨totalWidth, totalHeight, []⟩,
   [Ev.setWindow (min 1920 totalWidth) stitchViewportH])

/-! ## `capture_screenshot` (src/crawler.py:473-621) -/

/-- The main `try` body of `capture_screenshot` after the static-resource
check: navigate, waits, readiness probe, media suppression, then either
the Firefox native full-page shot or the manual dimension-based capture.
Returns the outcome together with the observable driver events. -/
def captureMainAttempt (cfg : CrawlerCfg) (br : Browser) :
    Except PyErr PImage × List Ev :=
  match br.navigate 0 with
  | some e => (.error e, [Ev.nav])
  | none =>
  match br.waitLoadErr with
  | some e => (.error e, [Ev.nav])
  | none =>
  match br.pauseErr 0 with
  | some e => (.error e, [Ev.nav])
  | none =>
  match (if cfg.firefox then br.fullPage else none) with
  | some wh => (.ok (.shot wh.1 wh.2), [Ev.nav])
  | none =>
  match br.dimsErr 0 with
  | some e => (.error e, [Ev.nav])
  | none =>
    let totalWidth := (br.dims 0).1
    let totalHeight := (br.dims 0).2
    let viewHeight := min totalHeight 16000
    let evs := [Ev.nav, Ev.setWindow totalWidth viewHeight, Ev.scrollTop]
    if totalHeight > 15000 ∨ (totalWidth > 1920 ∧ totalHeight > 10000) then
      let st := capture_full_screenshot_with_stitching br totalWidth totalHeight
      (.ok (.composite st.1), evs ++ Ev.stitchEv :: st.2)
    else
      let imgWidth := (br.shot 0).1
      let imgHeight := (br.shot 0).2
      if imgHeight * 10 < totalHeight * 9 then
        let st := capture_full_screenshot_with_stitching br totalWidth totalHeight
        (.ok (.composite st.1), evs ++ Ev.shotEv :: Ev.stitchEv :: st.2)
      else
        (.ok (.shot imgWidth imgHeight), evs ++ [Ev.shotEv])

/-- The `except TimeoutException` handler of `capture_screenshot`: set the
page-load timeout to the constant 240, navigate again, wait, suppress
media, then a single viewport-height-limited (`min H 15000`) capture and
restore the configured timeout.  An exception raised by any of these
operations propagates out of `capture_screenshot` (Python `except`
clauses of the same `try` do not catch each other's bodies). -/
def captureTimeoutHandler (cfg : CrawlerCfg) (br : Browser) :
    Except PyErr PImage × List Ev :=
  let evs0 := [Ev.setTimeout 240]
  match br.navigate 1 with
  | some e => (.error e, evs0 ++ [Ev.nav])
  | none =>
  match br.pauseErr 1 with
  | some e => (.error e, evs0 ++ [Ev.nav])
  | none =>
  match br.dimsErr 1 with
  | some e => (.error e, evs0 ++ [Ev.nav])
  | none =>
    let totalWidth := (br.dims 1).1
    let totalHeight := (br.dims 1).2
    (.ok (.shot (br.shot 1).1 (br.shot 1).2),
     evs0 ++ [Ev.nav, Ev.setWindow totalWidth (min totalHeight 15000),
              Ev.shotEv, Ev.setTimeout cfg.pageLoadTimeout])

/-- The `except WebDriverException` handler of `capture_screenshot`:
close the driver (errors swallowed), re-create it (`_init_browser`
re-raises its failures), navigate again, wait, suppress media, then a
single viewport-height-limited capture.  Exceptions raised here
propagate out of `capture_screenshot`. -/
def captureWebdriverHandler (br : Browser) :
    Except PyErr PImage × List Ev :=
  match br.initErr with
  | some e => (.error e, [])
  | none =>
  match br.navigate 2 with
  | some e => (.error e, [Ev.nav])
  | none =>
  match br.pauseErr 2 with
  | some e => (.error e, [Ev.nav])
  | none =>
  match br.dimsErr 2 with
  | some e => (.error e, [Ev.nav])
  | none =>
    (.ok (.shot (br.shot 2).1 (br.shot 2).2),
     [Ev.nav, Ev.setWindow (br.dims 2).1 (min (br.dims 2).2 15000), Ev.shotEv])

/-- Outcome of one `capture_screenshot` call: the returned image or the
propagated Python exception, plus the observable driver events. -/
structure CaptureOut where
  result : Except PyErr PImage
  events : List Ev

/-- `WebCrawler.capture_screenshot` (src/crawler.py:473-621).  Static
resource URLs short-circuit to a 1×1 white placeholder before any driver
call.  Otherwise the main attempt runs; a `TimeoutException` goes to the
timeout-retry handler, any other `WebDriverException` to the
driver-restart handler, and any other exception yields the 1920×1080
white placeholder. -/
def capture_screenshot (cfg : CrawlerCfg) (br : Browser) (url : Url) : CaptureOut :=
  if is_resource_url url then
    ⟨.ok (.blankRGB 1 1), []⟩
  else
    let main := captureMainAttempt cfg br
    match main.1 with
    | .ok img => ⟨.ok img, main.2⟩
    | .error .timeout =>
      let h := captureTimeoutHandler cfg br
      ⟨h.1, main.2 ++ h.2⟩
    | .error .webdriver =>
      let h := captureWebdriverHandler br
      ⟨h.1, main.2 ++ h.2⟩
    | .error .other => ⟨.ok (.blankRGB 1920 1080), main.2⟩

/-! ## Lemmas about the stitching loop -/

/-- The list of tiles the stitching loop produces, separated from the
canvas it pastes them into (same recursion as `stitchLoop`). -/
def stitchTiles (br : Browser) (totalHeight : Nat) :
    Nat → Nat → Nat → Int → List Tile
  | 0, _, _, _ => []
  | fuel + 1, k, offset, lastScrolledPos =>
    if offset < totalHeight then
      let cur := br.scrollBack k
      if (cur : Int) = lastScrolledPos then []
      else
        ⟨offset, cur, (br.stitchShot k).1, (br.stitchShot k).2⟩ ::
          stitchTiles br totalHeight fuel (k + 1)
            (offset + (stitchViewportH - stitchOverlap)) (cur : Int)
    else []

/-- `stitchLoop` only pastes: it appends `stitchTiles` to the canvas's
tile list and leaves the canvas dimensions unchanged. -/
theorem stitchLoop_eq_tiles (br : Browser) (H : Nat) :
    ∀ (fuel k offset : Nat) (last : Int) (c : CImg),
      stitchLoop br H fuel k offset last c =
        { c with tiles := c.tiles ++ stitchTiles br H fuel k offset last } := by
  intro fuel
  induction fuel with
  | zero => intro k offset last c; simp [stitchLoop, stitchTiles]
  | succ f ih =>
    intro k offset last c
    by_cases h1 : offset < H
    · by_cases h2 : ((br.scrollBack k : Int) = last)
      · simp [stitchLoop, stitchTiles, h1, h2]
      · simp only [stitchLoop, stitchTiles, if_pos h1, if_neg h2, ih]
        simp [CImg.paste]
    · simp [stitchLoop, stitchTiles, h1]

/-- Any fuel that lets `offset` reach `totalHeight` gives the same tiles:
the loop's exit is governed by its own conditions, not by the fuel. -/
theorem stitchTiles_fuel_stable (br : Browser) (H : Nat) :
    ∀ (f1 f2 k offset : Nat) (last : Int),
      H ≤ offset + (stitchViewportH - stitchOverlap) * f1 →
      H ≤ offset + (stitchViewportH - stitchOverlap) * f2 →
      stitchTiles br H f1 k offset last = stitchTiles br H f2 k offset last := by
  intro f1
  induction f1 with
  | zero =>
    intro f2 k offset last hf1 hf2
    have hoff : ¬ offset < H := by simp at hf1; omega
    cases f2 with
    | zero => rfl
    | succ f2 => simp [stitchTiles, hoff]
  | succ f1 ih =>
    intro f2 k offset last hf1 hf2
    by_cases hoff : offset < H
    · cases f2 with
      | zero =>
        exfalso
        simp at hf2
        omega
      | succ f2 =>
        simp only [stitchTiles, if_pos hoff]
        by_cases h2 : ((br.scrollBack k : Int) = last)
        · simp [h2]
        · simp only [if_neg h2, List.cons.injEq, true_and]
          apply ih
          · rw [Nat.mul_succ] at hf1; omega
          · rw [Nat.mul_succ] at hf2; omega
    · cases f2 with
      | zero => simp [stitchTiles, hoff]
      | succ f2 => simp [stitchTiles, hoff]

/-- The `i`-th tile the loop produces (starting from loop counter `k` and
requested offset `offset`) was pasted at the achieved scroll position
`scrollBack (k + i)` and was requested at
`offset + (viewport_height - overlap) * i`. -/
theorem stitchTiles_get (br : Browser) (H : Nat) :
    ∀ (fuel k offset : Nat) (last : Int) (i : Nat) (t : Tile),
      (stitchTiles br H fuel k offset last)[i]? = some t →
      t.pos = br.scrollBack (k + i) ∧
      t.req = offset + (stitchViewportH - stitchOverlap) * i := by
  intro fuel
  induction fuel with
  | zero => intro k offset last i t ht; simp [stitchTiles] at ht
  | succ f ih =>
    intro k offset last i t ht
    by_cases h1 : offset < H
    · by_cases h2 : ((br.scrollBack k : Int) = last)
      · simp [stitchTiles, h1, h2] at ht
      · simp only [stitchTiles, if_pos h1, if_neg h2] at ht
        cases i with
        | zero =>
          simp only [List.getElem?_cons_zero, Option.some.injEq] at ht
          subst ht
          simp
        | succ i =>
          simp only [List.getElem?_cons_succ] at ht
          have := ih (k + 1) (offset + (stitchViewportH - stitchOverlap))
            (br.scrollBack k : Int) i t ht
          refine ⟨?_, ?_⟩
          · rw [this.1]; ring_nf
          · rw [this.2, Nat.mul_succ]; ring
    · simp [stitchTiles, h1] at ht

/-- When the achieved scroll positions stabilize — the reads of
iterations `j` and `j + 1` coincide — the loop captures at most `j + 1`
tiles: at iteration `j + 1` (if it is reached at all) the read equals
`last_scrolled_pos` and the loop breaks without capturing. -/
theorem stitchTiles_stab_length (br : Browser) (H j : Nat)
    (hstab : br.scrollBack (j + 1) = br.scrollBack j) :
    ∀ (fuel k offset : Nat) (last : Int),
      (k = 0 ∧ last = -1 ∨ ∃ k0, k = k0 + 1 ∧ last = (br.scrollBack k0 : Int)) →
      k ≤ j + 1 →
      (stitchTiles br H fuel k offset last).length + k ≤ j + 1 := by
  intro fuel
  induction fuel with
  | zero => intro k offset last _ hk; simp [stitchTiles]; omega
  | succ f ih =>
    intro k offset last hinv hk
    by_cases h1 : offset < H
    · by_cases h2 : ((br.scrollBack k : Int) = last)
      · simp [stitchTiles, h1, h2]; omega
      · rcases Nat.lt_or_ge k (j + 1) with hklt | hkge
        · simp only [stitchTiles, if_pos h1, if_neg h2, List.length_cons]
          have := ih (k + 1) (offset + (stitchViewportH - stitchOverlap))
            (br.scrollBack k : Int) (Or.inr ⟨k, rfl, rfl⟩) (by omega)
          omega
        · exfalso
          have hkeq : k = j + 1 := by omega
          rcases hinv with ⟨h0, _⟩ | ⟨k0, hk0, hlast⟩
          · omega
          · have : k0 = j := by omega
            subst this
            apply h2
            rw [hlast, hkeq, hstab]
    · simp [stitchTiles, h1]; omega

/-- With PIL's cropping, every row written by a paste lies inside the
canvas: `coveredRows` is contained in `[0, height)`. -/
theorem coveredRows_subset_range (c : CImg) :
    coveredRows c ⊆ Finset.range c.height := by
  unfold coveredRows
  induction c.tiles with
  | nil => simp
  | cons t ts ih =>
    simp only [List.foldr_cons]
    apply Finset.union_subset _ ih
    intro x hx
    simp only [Finset.mem_Ico, Finset.mem_range] at hx ⊢
    omega

/-- A concrete all-succeeding driver oracle, used to instantiate the
claim theorems on explicit inputs. -/
def okBrowser : Browser where
  navigate := fun _ => none
  waitLoadErr := none
  pauseErr := fun _ => none
  dimsErr := fun _ => none
  dims := fun _ => (800, 600)
  fullPage := none
  shot := fun _ => (800, 600)
  scrollBack := fun _ => 0
  stitchShot := fun _ => (800, 600)
  initErr := none

/-- C3: a page taking the stitched path gets viewport
`(min 1920 W, 1080)` and `overlap = 300`, and the returned composite has
size exactly `(W, H)` — pasting never resizes the canvas.  In particular
for `W = 1920`, `H = 20000` the composite is `1920 × 20000`. -/
theorem stitch_composite_exact_size (br : Browser) (W H : Nat) :
    (capture_full_screenshot_with_stitching br W H).1.width = W ∧
    (capture_full_screenshot_with_stitching br W H).1.height = H ∧
    (capture_full_screenshot_with_stitching br W H).2 =
      [Ev.setWindow (min 1920 W) 1080] ∧
    stitchOverlap = 300 ∧ stitchViewportH = 1080 ∧
    (capture_full_screenshot_with_stitching br 1920 20000).1.width = 1920 ∧
    (capture_full_screenshot_with_stitching br 1920 20000).1.height = 20000 := by
  simp [capture_full_screenshot_with_stitching, stitchLoop_eq_tiles,
    stitchViewportH, stitchOverlap]

/-- C4: whenever two consecutive scroll read-backs coincide (reads `j`
and `j + 1`), the stitching loop stops after at most `j + 1` tiles; the
rows written by the pastes all lie below `H` (total pasted coverage at
most `H`); and the loop's result is independent of any sufficient fuel
budget — the `while` loop genuinely terminates by its own exit
conditions. -/
theorem stitch_loop_terminates_within_budget (br : Browser) (W H j : Nat)
    (hstab : br.scrollBack (j + 1) = br.scrollBack j) :
    (capture_full_screenshot_with_stitching br W H).1.tiles.length ≤ j + 1 ∧
    coveredRows (capture_full_screenshot_with_stitching br W H).1 ⊆ Finset.range H ∧
    (coveredRows (capture_full_screenshot_with_stitching br W H).1).card ≤ H ∧
    (∀ fuel : Nat, H ≤ (stitchViewportH - stitchOverlap) * fuel →
       stitchLoop br H fuel 0 0 (-1) ⟨W, H, []⟩ =
       stitchLoop br H (H + 1) 0 0 (-1) ⟨W, H, []⟩) := by
  have hsub : coveredRows (capture_full_screenshot_with_stitching br W H).1 ⊆
      Finset.range H := by
    have := coveredRows_subset_range (capture_full_screenshot_with_stitching br W H).1
    have hh : (capture_full_screenshot_with_stitching br W H).1.height = H := by
      simp [capture_full_screenshot_with_stitching, stitchLoop_eq_tiles]
    rwa [hh] at this
  refine ⟨?_, hsub, ?_, ?_⟩
  · have := stitchTiles_stab_length br H j hstab (H + 1) 0 0 (-1)
      (Or.inl ⟨rfl, rfl⟩) (by omega)
    simpa [capture_full_screenshot_with_stitching, stitchLoop_eq_tiles] using this
  · calc (coveredRows (capture_full_screenshot_with_stitching br W H).1).card
        ≤ (Finset.range H).card := Finset.card_le_card hsub
      _ = H := Finset.card_range H
  · intro fuel hfuel
    rw [stitchLoop_eq_tiles, stitchLoop_eq_tiles]
    have : stitchTiles br H fuel 0 0 (-1) = stitchTiles br H (H + 1) 0 0 (-1) := by
      apply stitchTiles_fuel_stable br H fuel (H + 1) 0 0 (-1)
      · omega
      · have : stitchViewportH - stitchOverlap = 780 := by decide
        rw [this]
        omega
    rw [this]

/-- Witness for C4: constant scroll read-backs stabilize immediately, so
at most one tile is captured. -/
theorem stitch_loop_terminates_within_budget_witness :
    okBrowser.scrollBack (0 + 1) = okBrowser.scrollBack 0 ∧
    (capture_full_screenshot_with_stitching okBrowser 40 30).1.tiles.length ≤ 0 + 1 :=
  ⟨rfl, (stitch_loop_terminates_within_budget okBrowser 40 30 0 rfl).1⟩

/-- C5: the tile of iteration `i` is pasted at the achieved scroll
position `scrollBack i` (not at the requested offset), the requested
offset of iteration `i` is `(viewport_height - overlap) * i = 780 * i`
(each iteration advances it by exactly 780), and once a read-back equals
the previous one the loop stops without capturing a further tile. -/
theorem stitch_paste_at_achieved_position (br : Browser) (W H : Nat) :
    (∀ (i : Nat) (t : Tile),
       ((capture_full_screenshot_with_stitching br W H).1.tiles)[i]? = some t →
       t.pos = br.scrollBack i ∧ t.req = 780 * i) ∧
    (∀ j : Nat, br.scrollBack (j + 1) = br.scrollBack j →
       (capture_full_screenshot_with_stitching br W H).1.tiles.length ≤ j + 1) := by
  constructor
  · intro i t ht
    simp only [capture_full_screenshot_with_stitching, stitchLoop_eq_tiles,
      List.nil_append] at ht
    have := stitchTiles_get br H (H + 1) 0 0 (-1) i t ht
    have hstep : stitchViewportH - stitchOverlap = 780 := by decide
    constructor
    · rw [this.1, Nat.zero_add]
    · rw [this.2, hstep]; omega
  · intro j hstab
    have := stitchTiles_stab_length br H j hstab (H + 1) 0 0 (-1)
      (Or.inl ⟨rfl, rfl⟩) (by omega)
    simpa [capture_full_screenshot_with_stitching, stitchLoop_eq_tiles] using this

/-- Witness for C5: on a small page the single captured tile is pasted at
the achieved position 0 with requested offset 0. -/
theorem stitch_paste_at_achieved_position_witness :
    ((capture_full_screenshot_with_stitching okBrowser 40 30).1.tiles)[0]? =
      some ⟨0, 0, 800, 600⟩ ∧
    (⟨0, 0, 800, 600⟩ : Tile).pos = okBrowser.scrollBack 0 ∧
    (⟨0, 0, 800, 600⟩ : Tile).req = 780 * 0 :=
  ⟨by decide,
   ((stitch_paste_at_achieved_position okBrowser 40 30).1 0 _ (by decide)).1,
   ((stitch_paste_at_achieved_position okBrowser 40 30).1 0 _ (by decide)).2⟩

/-! ## Claims about `capture_screenshot` -/

instance {ε α : Type} [DecidableEq ε] [DecidableEq α] : DecidableEq (Except ε α) := fun
  | .ok x, .ok y =>
    if h : x = y then isTrue (by rw [h])
    else isFalse (by intro hc; injection hc; contradiction)
  | .ok _, .error _ => isFalse (by intro hc; exact Except.noConfusion hc)
  | .error _, .ok _ => isFalse (by intro hc; exact Except.noConfusion hc)
  | .error x, .error y =>
    if h : x = y then isTrue (by rw [h])
    else isFalse (by intro hc; injection hc; contradiction)

/-- The values passed to `set_page_load_timeout`, in call order. -/
def setTimeoutsOf (evs : List Ev) : List Nat :=
  evs.filterMap fun e => match e with | .setTimeout t => some t | _ => none

/-- The default Chrome-flavoured configuration
(`WebCrawler.__init__` defaults with `browser="chrome"`). -/
def chromeCfg : CrawlerCfg where
  firefox := false
  waitTime := 45
  extraWait := 20
  pageLoadTimeout := 180

/-- A configuration with a short, non-default page-load timeout. -/
def shortCfg : CrawlerCfg where
  firefox := false
  waitTime := 45
  extraWait := 20
  pageLoadTimeout := 60

/-- A non-resource page URL. -/
def urlHome : Url := ⟨"/".toList⟩

/-- C9: a URL classified as a static resource is answered with the 1×1
white placeholder before any driver call — in particular no
navigation happens. -/
theorem capture_static_resource_no_navigation (cfg : CrawlerCfg) (br : Browser)
    (u : Url) (h : is_resource_url u = true) :
    (capture_screenshot cfg br u).result = .ok (.blankRGB 1 1) ∧
    Ev.nav ∉ (capture_screenshot cfg br u).events := by
  simp [capture_screenshot, h]

/-- Witness for C9 at a concrete static-resource URL. -/
theorem capture_static_resource_no_navigation_witness :
    is_resource_url ⟨"/wp-content/uploads/x.jpg".toList⟩ = true ∧
    (capture_screenshot chromeCfg okBrowser ⟨"/wp-content/uploads/x.jpg".toList⟩).result =
      .ok (.blankRGB 1 1) :=
  ⟨by decide,
   (capture_static_resource_no_navigation chromeCfg okBrowser _ (by decide)).1⟩

/-- Helper: a three-element ordered subsequence of the event lists the
manual capture produces. -/
theorem sublist_skip_head (a b c d : Ev) (rest : List Ev) :
    List.Sublist [b, c, d] (a :: b :: c :: d :: rest) :=
  List.Sublist.cons a
    ((List.Sublist.cons₂ b) ((List.Sublist.cons₂ c)
      ((List.Sublist.cons₂ d) (List.nil_sublist rest))))

/-- C2: with the native full-page primitive unavailable (Chrome), the
capture stitches immediately exactly when `H > 15000` or
(`W > 1920` and `H > 10000`); otherwise it resizes the viewport to
`(W, min H 16000)`, scrolls to the origin, takes one snapshot, and
stitches only when that snapshot's height is below 0.9·H (the float
comparison `img_height < total_height * 0.9` is embedded as the exact
rational comparison `img_height * 10 < total_height * 9`). -/
theorem capture_decision_rule (cfg : CrawlerCfg) (br : Browser) (u : Url)
    (W H : Nat)
    (hres : is_resource_url u = false) (hff : cfg.firefox = false)
    (hn : br.navigate 0 = none) (hw : br.waitLoadErr = none)
    (hp : br.pauseErr 0 = none) (hd : br.dimsErr 0 = none)
    (hdims : br.dims 0 = (W, H)) :
    ((capture_screenshot cfg br u).result =
      .ok (if H > 15000 ∨ (W > 1920 ∧ H > 10000) then
             .composite (capture_full_screenshot_with_stitching br W H).1
           else if (br.shot 0).2 * 10 < H * 9 then
             .composite (capture_full_screenshot_with_stitching br W H).1
           else .shot (br.shot 0).1 (br.shot 0).2)) ∧
    (¬(H > 15000 ∨ (W > 1920 ∧ H > 10000)) →
       List.Sublist [Ev.setWindow W (min H 16000), Ev.scrollTop, Ev.shotEv]
         (capture_screenshot cfg br u).events) ∧
    (Ev.stitchEv ∈ (capture_screenshot cfg br u).events ↔
       (H > 15000 ∨ (W > 1920 ∧ H > 10000)) ∨ (br.shot 0).2 * 10 < H * 9) := by
  by_cases hbig : H > 15000 ∨ (W > 1920 ∧ H > 10000)
  · have hM : captureMainAttempt cfg br =
        (.ok (.composite (capture_full_screenshot_with_stitching br W H).1),
         Ev.nav :: Ev.setWindow W (min H 16000) :: Ev.scrollTop ::
           Ev.stitchEv :: (capture_full_screenshot_with_stitching br W H).2) := by
      simp [captureMainAttempt, hn, hw, hp, hff, hd, hdims, hbig]
    have hcap : capture_screenshot cfg br u =
        ⟨.ok (.composite (capture_full_screenshot_with_stitching br W H).1),
         Ev.nav :: Ev.setWindow W (min H 16000) :: Ev.scrollTop ::
           Ev.stitchEv :: (capture_full_screenshot_with_stitching br W H).2⟩ := by
      simp [capture_screenshot, hres, hM]
    rw [hcap]
    refine ⟨by simp [hbig], fun hc => absurd hbig hc, ?_⟩
    simp [hbig]
  · by_cases hsmall : (br.shot 0).2 * 10 < H * 9
    · have hM : captureMainAttempt cfg br =
          (.ok (.composite (capture_full_screenshot_with_stitching br W H).1),
           Ev.nav :: Ev.setWindow W (min H 16000) :: Ev.scrollTop ::
             Ev.shotEv :: Ev.stitchEv ::
               (capture_full_screenshot_with_stitching br W H).2) := by
        simp [captureMainAttempt, hn, hw, hp, hff, hd, hdims, hbig, hsmall]
      have hcap : capture_screenshot cfg br u =
          ⟨.ok (.composite (capture_full_screenshot_with_stitching br W H).1),
           Ev.nav :: Ev.setWindow W (min H 16000) :: Ev.scrollTop ::
             Ev.shotEv :: Ev.stitchEv ::
               (capture_full_screenshot_with_stitching br W H).2⟩ := by
        simp [capture_screenshot, hres, hM]
      rw [hcap]
      refine ⟨by simp [hbig, hsmall], fun _ => ?_, by simp [hbig, hsmall]⟩
      exact List.Sublist.cons _ ((List.Sublist.cons₂ _) ((List.Sublist.cons₂ _)
        ((List.Sublist.cons₂ _) (List.nil_sublist _))))
    · have hM : captureMainAttempt cfg br =
          (.ok (.shot (br.shot 0).1 (br.shot 0).2),
           [Ev.nav, Ev.setWindow W (min H 16000), Ev.scrollTop, Ev.shotEv]) := by
        simp [captureMainAttempt, hn, hw, hp, hff, hd, hdims, hbig, hsmall]
      have hcap : capture_screenshot cfg br u =
          ⟨.ok (.shot (br.shot 0).1 (br.shot 0).2),
           [Ev.nav, Ev.setWindow W (min H 16000), Ev.scrollTop, Ev.shotEv]⟩ := by
        simp [capture_screenshot, hres, hM]
      rw [hcap]
      refine ⟨by simp [hbig, hsmall], fun _ => ?_, ?_⟩
      · exact sublist_skip_head _ _ _ _ _
      · simp [hbig, hsmall]

/-- Witness for C2: an 800×600 page takes the direct path and the single
snapshot is returned. -/
theorem capture_decision_rule_witness :
    (capture_screenshot chromeCfg okBrowser urlHome).result = .ok (.shot 800 600) := by
  have h := (capture_decision_rule chromeCfg okBrowser urlHome 800 600
    (by decide) rfl rfl rfl rfl rfl rfl).1
  rw [if_neg (by decide), if_neg (by decide)] at h
  exact h

/-- A driver whose single snapshot is 50 px shorter than the measured
page height but still above the 90% threshold. -/
def shortShotBrowser : Browser :=
  { okBrowser with dims := fun _ => (1000, 1000), shot := fun _ => (1000, 950) }

/-- Counterexample to C6 as stated: on a 1000×1000 page whose snapshot
passes the 90% height check with height 950, the direct path returns the
950-pixel-high snapshot itself — not an image of size exactly (W, H):
the code checks only `img_height < total_height * 0.9` and never enforces
the returned size. -/
theorem direct_capture_exact_size_counterexample :
    (capture_screenshot chromeCfg shortShotBrowser urlHome).result =
      .ok (.shot 1000 950) ∧ (950 : Nat) ≠ 1000 := by
  constructor
  · decide
  · decide

/-- C6 (amended): for `H ≤ 15000`, `W ≤ 1920` and a snapshot passing the
90% height check, capture takes the direct, non-stitched path and
returns the snapshot image unchanged; its size is exactly `(W, H)`
precisely when the driver's snapshot has that size. -/
theorem direct_capture_returns_snapshot (cfg : CrawlerCfg) (br : Browser) (u : Url)
    (W H : Nat)
    (hres : is_resource_url u = false) (hff : cfg.firefox = false)
    (hn : br.navigate 0 = none) (hw : br.waitLoadErr = none)
    (hp : br.pauseErr 0 = none) (hd : br.dimsErr 0 = none)
    (hdims : br.dims 0 = (W, H)) (hH : H ≤ 15000) (hW : W ≤ 1920)
    (h09 : H * 9 ≤ (br.shot 0).2 * 10) :
    (capture_screenshot cfg br u).result = .ok (.shot (br.shot 0).1 (br.shot 0).2) ∧
    Ev.stitchEv ∉ (capture_screenshot cfg br u).events ∧
    (br.shot 0 = (W, H) →
      (capture_screenshot cfg br u).result = .ok (.shot W H)) := by
  have hbig : ¬(H > 15000 ∨ (W > 1920 ∧ H > 10000)) := by omega
  have hsmall : ¬((br.shot 0).2 * 10 < H * 9) := by omega
  have h := capture_decision_rule cfg br u W H hres hff hn hw hp hd hdims
  have hr : (capture_screenshot cfg br u).result =
      .ok (.shot (br.shot 0).1 (br.shot 0).2) := by
    rw [h.1, if_neg hbig, if_neg hsmall]
  refine ⟨hr, ?_, fun hs => by rw [hr, hs]⟩
  intro hmem
  rcases h.2.2.1 hmem with hc | hc
  · exact hbig hc
  · exact hsmall hc

/-- Witness for C6 (amended) with a snapshot of exactly the measured
size. -/
theorem direct_capture_returns_snapshot_witness :
    (600 : Nat) * 9 ≤ (okBrowser.shot 0).2 * 10 ∧
    (capture_screenshot chromeCfg okBrowser urlHome).result =
      .ok (.shot (okBrowser.shot 0).1 (okBrowser.shot 0).2) :=
  ⟨by decide,
   (direct_capture_returns_snapshot chromeCfg okBrowser urlHome 800 600
     (by decide) rfl rfl rfl rfl rfl rfl (by decide) (by decide) (by decide)).1⟩

/-- A driver for which every navigation attempt times out. -/
def alwaysTimeoutBrowser : Browser :=
  { okBrowser with navigate := fun _ => some .timeout }

/-- Counterexample to C1 as stated: when the initial navigation raises
`TimeoutException` and the retry navigation inside the
`except TimeoutException` handler raises again, the second exception
propagates out of `capture_screenshot` — the caller gets an exception,
not an image (a `raise` inside an `except` block is not caught by the
sibling `except` clauses). -/
theorem capture_exception_escapes_counterexample :
    (capture_screenshot chromeCfg alwaysTimeoutBrowser urlHome).result =
      .error .timeout := by
  decide

/-- C1 (amended): `capture_screenshot` never lets a failure of the main
attempt escape: an unclassified failure yields the 1920×1080 white
placeholder, a timeout or driver error is retried.  Whenever the
operations performed inside the two retry handlers succeed, the caller
always receives an image; only a failure raised inside a retry handler
itself can propagate. -/
theorem capture_always_returns_image (cfg : CrawlerCfg) (br : Browser) (u : Url)
    (h1 : br.navigate 1 = none) (h2 : br.pauseErr 1 = none)
    (h3 : br.dimsErr 1 = none) (h4 : br.initErr = none)
    (h5 : br.navigate 2 = none) (h6 : br.pauseErr 2 = none)
    (h7 : br.dimsErr 2 = none) :
    (∃ img, (capture_screenshot cfg br u).result = .ok img) ∧
    (is_resource_url u = false →
      (captureMainAttempt cfg br).1 = .error .other →
      (capture_screenshot cfg br u).result = .ok (.blankRGB 1920 1080)) := by
  constructor
  · by_cases hr : is_resource_url u
    · exact ⟨.blankRGB 1 1, by simp [capture_screenshot, hr]⟩
    · rw [Bool.not_eq_true] at hr
      rcases hmain : (captureMainAttempt cfg br).1 with e | img
      · cases e with
        | timeout =>
          exact ⟨.shot (br.shot 1).1 (br.shot 1).2,
            by simp [capture_screenshot, hr, hmain, captureTimeoutHandler, h1, h2, h3]⟩
        | webdriver =>
          exact ⟨.shot (br.shot 2).1 (br.shot 2).2,
            by simp [capture_screenshot, hr, hmain, captureWebdriverHandler,
              h4, h5, h6, h7]⟩
        | other =>
          exact ⟨.blankRGB 1920 1080, by simp [capture_screenshot, hr, hmain]⟩
      · exact ⟨img, by simp [capture_screenshot, hr, hmain]⟩
  · intro hr hother
    simp [capture_screenshot, hr, hother]

/-- Witness for C1 (amended): with an all-succeeding driver the call
returns an image. -/
theorem capture_always_returns_image_witness :
    okBrowser.navigate 1 = none ∧
    ∃ img, (capture_screenshot chromeCfg okBrowser urlHome).result = .ok img :=
  ⟨rfl, (capture_always_returns_image chromeCfg okBrowser urlHome
    rfl rfl rfl rfl rfl rfl rfl).1⟩

/-- A driver whose first navigation times out and whose retry succeeds. -/
def retryOkBrowser : Browser :=
  { okBrowser with navigate := fun k => if k = 0 then some .timeout else none }

/-- Counterexample to C7 as stated: with a configured page-load timeout
of 60 s, the retry sets the timeout to the constant 240 — not to the
configured value doubled (120), and no cap applied to 120 could raise it
to 240 (`¬ 240 ≤ 2 * 60`).  The restored value is the configured 60. -/
theorem timeout_retry_not_doubled_counterexample :
    setTimeoutsOf (capture_screenshot shortCfg retryOkBrowser urlHome).events =
      [240, 60] ∧ ¬ (240 ≤ 2 * 60) := by
  constructor
  · decide
  · decide

/-- C7 (amended): on a navigation timeout, capture retries exactly once
(two navigations in total) with the page-load timeout set to the fixed
constant 240 s — not derived from the configured timeout — performs a
single viewport-height-limited (`min H 15000`) capture with no
stitching, and afterwards restores the configured page-load timeout. -/
theorem timeout_retry_behavior (cfg : CrawlerCfg) (br : Browser) (u : Url)
    (hres : is_resource_url u = false)
    (h0 : br.navigate 0 = some .timeout)
    (h1 : br.navigate 1 = none) (h2 : br.pauseErr 1 = none)
    (h3 : br.dimsErr 1 = none) :
    (capture_screenshot cfg br u).events =
      [Ev.nav, Ev.setTimeout 240, Ev.nav,
       Ev.setWindow (br.dims 1).1 (min (br.dims 1).2 15000),
       Ev.shotEv, Ev.setTimeout cfg.pageLoadTimeout] ∧
    setTimeoutsOf (capture_screenshot cfg br u).events =
      [240, cfg.pageLoadTimeout] ∧
    (capture_screenshot cfg br u).events.count Ev.nav = 2 ∧
    Ev.stitchEv ∉ (capture_screenshot cfg br u).events ∧
    (capture_screenshot cfg br u).result =
      .ok (.shot (br.shot 1).1 (br.shot 1).2) := by
  have hev : (capture_screenshot cfg br u).events =
      [Ev.nav, Ev.setTimeout 240, Ev.nav,
       Ev.setWindow (br.dims 1).1 (min (br.dims 1).2 15000),
       Ev.shotEv, Ev.setTimeout cfg.pageLoadTimeout] := by
    simp [capture_screenshot, hres, captureMainAttempt, h0,
      captureTimeoutHandler, h1, h2, h3]
  have hresu : (capture_screenshot cfg br u).result =
      .ok (.shot (br.shot 1).1 (br.shot 1).2) := by
    simp [capture_screenshot, hres, captureMainAttempt, h0,
      captureTimeoutHandler, h1, h2, h3]
  refine ⟨hev, ?_, ?_, ?_, hresu⟩
  · rw [hev]; simp [setTimeoutsOf]
  · rw [hev]; simp [List.count_cons]
  · rw [hev]; simp

/-- Witness for C7 (amended) at the default 180 s configuration. -/
theorem timeout_retry_behavior_witness :
    retryOkBrowser.navigate 0 = some .timeout ∧
    setTimeoutsOf (capture_screenshot chromeCfg retryOkBrowser urlHome).events =
      [240, chromeCfg.pageLoadTimeout] :=
  ⟨rfl, (timeout_retry_behavior chromeCfg retryOkBrowser urlHome
    (by decide) rfl rfl rfl rfl).2.1⟩

/-! ## `_pause_videos_and_animations` (src/crawler.py:399-471)

The injected JavaScript mutates the live DOM.  We model the DOM as a
list of elements carrying exactly the attributes the script reads or
writes: tag, the `class` attribute string, `src`, video playback state,
`style.animationPlayState`, `style.display` and the computed `position`.
The appended `<style>` sheet is modelled as the list of injected CSS
rule strings. -/

/-- HTML tags distinguished by the script's selectors. -/
inductive HTag
  | video
  | iframe
  | header
  | footer
  | nav
  | div
deriving DecidableEq, Repr

/-- One DOM element, restricted to the attributes the suppression script
touches. -/
@[ext] structure Elem where
  tag : HTag
  className : List Char
  src : List Char
  paused : Bool
  currentTime : Nat
  animPlay : List Char
  display : List Char
  position : List Char
deriving DecidableEq, Repr

/-- A DOM: elements plus the stylesheets appended to `document.head`. -/
structure Dom where
  elems : List Elem
  sheets : List (List Char)
deriving DecidableEq, Repr

/-- `videos[i].pause(); videos[i].currentTime = 0`. -/
def pauseVideo (e : Elem) : Elem :=
  if e.tag == HTag.video then { e with paused := true, currentTime := 0 } else e

/-- The selector `iframe[src*="youtube"], iframe[src*="vimeo"]`. -/
def embedSel (e : Elem) : Bool :=
  e.tag == HTag.iframe &&
    (occursIn "youtube".toList e.src || occursIn "vimeo".toList e.src)

/-- The embed-URL rewrite: append `autoplay=0` (and `controls=0` for
YouTube) to the iframe `src`, with `?` or `&` depending on whether the
current `src` already contains a `?`. -/
def rewriteEmbed (e : Elem) : Elem :=
  if embedSel e then
    if occursIn "youtube".toList e.src then
      { e with src := e.src ++ (if occursIn "?".toList e.src
          then "&autoplay=0&controls=0".toList
          else "?autoplay=0&controls=0".toList) }
    else
      { e with src := e.src ++ (if occursIn "?".toList e.src
          then "&autoplay=0".toList
          else "?autoplay=0".toList) }
  else e

/-- The selector
`.carousel, .slider, [class*="carousel"], [class*="slider"], [class*="banner"]`
(the class-token alternatives are subsumed by the substring ones). -/
def carouselSel (e : Elem) : Bool :=
  occursIn "carousel".toList e.className || occursIn "slider".toList e.className ||
  occursIn "banner".toList e.className

/-- `style.animationPlayState = 'paused'` on matched carousels. -/
def pauseCarousel (e : Elem) : Elem :=
  if carouselSel e then { e with animPlay := "paused".toList } else e

/-- The cookie/popup/modal/notification/overlay/toast selector (again the
class-token alternatives are subsumed by the substring ones). -/
def overlaySel (e : Elem) : Bool :=
  occursIn "cookie".toList e.className || occursIn "popup".toList e.className ||
  occursIn "modal".toList e.className ||
  occursIn "notification".toList e.className ||
  occursIn "overlay".toList e.className || occursIn "toast".toList e.className

/-- `style.display = 'none'` on matched overlay elements. -/
def hideOverlay (e : Elem) : Elem :=
  if overlaySel e then { e with display := "none".toList } else e

/-- Class tokens of a `class` attribute (split at spaces), for the
`.nav`, `.fixed`, `.sticky`, … token selectors. -/
def classTokens : List Char → List Char → List (List Char)
  | [], acc => if acc = [] then [] else [acc.reverse]
  | c :: rest, acc =>
    if c = ' ' then
      (if acc = [] then classTokens rest [] else acc.reverse :: classTokens rest [])
    else classTokens rest (c :: acc)

/-- Token membership in the `class` attribute. -/
def hasTok (t : List Char) (cls : List Char) : Bool :=
  (classTokens cls []).any (fun x => x == t)

/-- The selector
`header, footer, nav, .header, .footer, .nav, [class*="header"],
[class*="footer"], [class*="navigation"], [class*="navbar"],
[class*="nav-bar"], .fixed, .sticky`. -/
def fixedSel (e : Elem) : Bool :=
  e.tag == HTag.header || e.tag == HTag.footer || e.tag == HTag.nav ||
  hasTok "nav".toList e.className ||
  hasTok "fixed".toList e.className || hasTok "sticky".toList e.className ||
  occursIn "header".toList e.className || occursIn "footer".toList e.className ||
  occursIn "navigation".toList e.className ||
  occursIn "navbar".toList e.className || occursIn "nav-bar".toList e.className

/-- The fixed/sticky conversion: a matched element whose computed
position is `fixed` or `sticky` gets `style.position = 'absolute'`. -/
def unfix (e : Elem) : Elem :=
  if fixedSel e &&
      (e.position == "fixed".toList || e.position == "sticky".toList) then
    { e with position := "absolute".toList }
  else e

/-- The effect of one `_pause_videos_and_animations` run on one element:
the script's per-element passes in source order. -/
def suppressElem (e : Elem) : Elem :=
  unfix (hideOverlay (pauseCarousel (rewriteEmbed (pauseVideo e))))

/-- The CSS text of the stylesheet the script appends on every run. -/
def freezeRule : List Char :=
  "* \x7b animation-play-state: paused !important; -webkit-animation-play-state: paused !important; transition: none !important; \x7d".toList

/-- `_pause_videos_and_animations`: mutate every element and append the
animation-freezing stylesheet to the document head. -/
def pause_videos_and_animations (d : Dom) : Dom :=
  { elems := d.elems.map suppressElem, sheets := d.sheets ++ [freezeRule] }

/-- The visible state of a DOM: the rendered per-element attributes plus
whether the freeze rule is in effect (a stylesheet is a set of rules —
appending the same rule twice does not change the effective style). -/
structure Rendered where
  elems : List Elem
  frozen : Bool
deriving DecidableEq, Repr

/-- Visible-state projection of a DOM. -/
def render (d : Dom) : Rendered :=
  ⟨d.elems, decide (freezeRule ∈ d.sheets)⟩

/-! Field-preservation facts for each pass of the suppression script. -/

@[simp] lemma pauseVideo_tag (e : Elem) : (pauseVideo e).tag = e.tag := by
  unfold pauseVideo; split_ifs <;> rfl

@[simp] lemma pauseVideo_className (e : Elem) :
    (pauseVideo e).className = e.className := by
  unfold pauseVideo; split_ifs <;> rfl

@[simp] lemma pauseVideo_src (e : Elem) : (pauseVideo e).src = e.src := by
  unfold pauseVideo; split_ifs <;> rfl

@[simp] lemma pauseVideo_animPlay (e : Elem) :
    (pauseVideo e).animPlay = e.animPlay := by
  unfold pauseVideo; split_ifs <;> rfl

@[simp] lemma pauseVideo_display (e : Elem) :
    (pauseVideo e).display = e.display := by
  unfold pauseVideo; split_ifs <;> rfl

@[simp] lemma pauseVideo_position (e : Elem) :
    (pauseVideo e).position = e.position := by
  unfold pauseVideo; split_ifs <;> rfl

lemma pauseVideo_paused (e : Elem) :
    (pauseVideo e).paused = (if e.tag == HTag.video then true else e.paused) := by
  unfold pauseVideo; split_ifs <;> rfl

lemma pauseVideo_currentTime (e : Elem) :
    (pauseVideo e).currentTime = (if e.tag == HTag.video then 0 else e.currentTime) := by
  unfold pauseVideo; split_ifs <;> rfl

@[simp] lemma rewriteEmbed_tag (e : Elem) : (rewriteEmbed e).tag = e.tag := by
  unfold rewriteEmbed; split_ifs <;> rfl

@[simp] lemma rewriteEmbed_className (e : Elem) :
    (rewriteEmbed e).className = e.className := by
  unfold rewriteEmbed; split_ifs <;> rfl

@[simp] lemma rewriteEmbed_paused (e : Elem) :
    (rewriteEmbed e).paused = e.paused := by
  unfold rewriteEmbed; split_ifs <;> rfl

@[simp] lemma rewriteEmbed_currentTime (e : Elem) :
    (rewriteEmbed e).currentTime = e.currentTime := by
  unfold rewriteEmbed; split_ifs <;> rfl

@[simp] lemma rewriteEmbed_animPlay (e : Elem) :
    (rewriteEmbed e).animPlay = e.animPlay := by
  unfold rewriteEmbed; split_ifs <;> rfl

@[simp] lemma rewriteEmbed_display (e : Elem) :
    (rewriteEmbed e).display = e.display := by
  unfold rewriteEmbed; split_ifs <;> rfl

@[simp] lemma rewriteEmbed_position (e : Elem) :
    (rewriteEmbed e).position = e.position := by
  unfold rewriteEmbed; split_ifs <;> rfl

/-- An element outside the embed selector is untouched by the rewrite. -/
lemma rewriteEmbed_id (e : Elem) (h : embedSel e = false) :
    rewriteEmbed e = e := by
  unfold rewriteEmbed; rw [h]; rfl

@[simp] lemma pauseCarousel_tag (e : Elem) : (pauseCarousel e).tag = e.tag := by
  unfold pauseCarousel; split_ifs <;> rfl

@[simp] lemma pauseCarousel_className (e : Elem) :
    (pauseCarousel e).className = e.className := by
  unfold pauseCarousel; split_ifs <;> rfl

@[simp] lemma pauseCarousel_src (e : Elem) : (pauseCarousel e).src = e.src := by
  unfold pauseCarousel; split_ifs <;> rfl

@[simp] lemma pauseCarousel_paused (e : Elem) :
    (pauseCarousel e).paused = e.paused := by
  unfold pauseCarousel; split_ifs <;> rfl

@[simp] lemma pauseCarousel_currentTime (e : Elem) :
    (pauseCarousel e).currentTime = e.currentTime := by
  unfold pauseCarousel; split_ifs <;> rfl

@[simp] lemma pauseCarousel_display (e : Elem) :
    (pauseCarousel e).display = e.display := by
  unfold pauseCarousel; split_ifs <;> rfl

@[simp] lemma pauseCarousel_position (e : Elem) :
    (pauseCarousel e).position = e.position := by
  unfold pauseCarousel; split_ifs <;> rfl

lemma pauseCarousel_animPlay (e : Elem) :
    (pauseCarousel e).animPlay =
      (if carouselSel e then "paused".toList else e.animPlay) := by
  unfold pauseCarousel; split_ifs <;> rfl

@[simp] lemma hideOverlay_tag (e : Elem) : (hideOverlay e).tag = e.tag := by
  unfold hideOverlay; split_ifs <;> rfl

@[simp] lemma hideOverlay_className (e : Elem) :
    (hideOverlay e).className = e.className := by
  unfold hideOverlay; split_ifs <;> rfl

@[simp] lemma hideOverlay_src (e : Elem) : (hideOverlay e).src = e.src := by
  unfold hideOverlay; split_ifs <;> rfl

@[simp] lemma hideOverlay_paused (e : Elem) :
    (hideOverlay e).paused = e.paused := by
  unfold hideOverlay; split_ifs <;> rfl

@[simp] lemma hideOverlay_currentTime (e : Elem) :
    (hideOverlay e).currentTime = e.currentTime := by
  unfold hideOverlay; split_ifs <;> rfl

@[simp] lemma hideOverlay_animPlay (e : Elem) :
    (hideOverlay e).animPlay = e.animPlay := by
  unfold hideOverlay; split_ifs <;> rfl

@[simp] lemma hideOverlay_position (e : Elem) :
    (hideOverlay e).position = e.position := by
  unfold hideOverlay; split_ifs <;> rfl

lemma hideOverlay_display (e : Elem) :
    (hideOverlay e).display =
      (if overlaySel e then "none".toList else e.display) := by
  unfold hideOverlay; split_ifs <;> rfl

@[simp] lemma unfix_tag (e : Elem) : (unfix e).tag = e.tag := by
  unfold unfix; split_ifs <;> rfl

@[simp] lemma unfix_className (e : Elem) : (unfix e).className = e.className := by
  unfold unfix; split_ifs <;> rfl

@[simp] lemma unfix_src (e : Elem) : (unfix e).src = e.src := by
  unfold unfix; split_ifs <;> rfl

@[simp] lemma unfix_paused (e : Elem) : (unfix e).paused = e.paused := by
  unfold unfix; split_ifs <;> rfl

@[simp] lemma unfix_currentTime (e : Elem) :
    (unfix e).currentTime = e.currentTime := by
  unfold unfix; split_ifs <;> rfl

@[simp] lemma unfix_animPlay (e : Elem) : (unfix e).animPlay = e.animPlay := by
  unfold unfix; split_ifs <;> rfl

@[simp] lemma unfix_display (e : Elem) : (unfix e).display = e.display := by
  unfold unfix; split_ifs <;> rfl

lemma unfix_position (e : Elem) :
    (unfix e).position =
      (if fixedSel e &&
          (e.position == "fixed".toList || e.position == "sticky".toList)
       then "absolute".toList else e.position) := by
  unfold unfix; split_ifs <;> rfl

/-! Selector congruences: the selectors read only fields that the other
passes preserve. -/

lemma carouselSel_congr {x y : Elem} (h : x.className = y.className) :
    carouselSel x = carouselSel y := by unfold carouselSel; rw [h]

lemma overlaySel_congr {x y : Elem} (h : x.className = y.className) :
    overlaySel x = overlaySel y := by unfold overlaySel; rw [h]

lemma fixedSel_congr {x y : Elem} (ht : x.tag = y.tag)
    (h : x.className = y.className) : fixedSel x = fixedSel y := by
  unfold fixedSel; rw [h, ht]

lemma embedSel_congr {x y : Elem} (ht : x.tag = y.tag) (h : x.src = y.src) :
    embedSel x = embedSel y := by unfold embedSel; rw [h, ht]

/-! `suppressElem` field equations. -/

@[simp] lemma suppressElem_tag (e : Elem) : (suppressElem e).tag = e.tag := by
  simp [suppressElem]

@[simp] lemma suppressElem_className (e : Elem) :
    (suppressElem e).className = e.className := by
  simp [suppressElem]

lemma suppressElem_src (e : Elem) (h : embedSel e = false) :
    (suppressElem e).src = e.src := by
  unfold suppressElem
  rw [rewriteEmbed_id (pauseVideo e)
    (((embedSel_congr (pauseVideo_tag e) (pauseVideo_src e))).trans h)]
  simp

lemma suppressElem_paused (e : Elem) :
    (suppressElem e).paused = (if e.tag == HTag.video then true else e.paused) := by
  simp [suppressElem, pauseVideo_paused]

lemma suppressElem_currentTime (e : Elem) :
    (suppressElem e).currentTime =
      (if e.tag == HTag.video then 0 else e.currentTime) := by
  simp [suppressElem, pauseVideo_currentTime]

lemma suppressElem_animPlay (e : Elem) :
    (suppressElem e).animPlay =
      (if carouselSel e then "paused".toList else e.animPlay) := by
  unfold suppressElem
  simp only [unfix_animPlay, hideOverlay_animPlay, pauseCarousel_animPlay,
    rewriteEmbed_animPlay, pauseVideo_animPlay]
  rw [carouselSel_congr (x := rewriteEmbed (pauseVideo e)) (y := e) (by simp)]

lemma suppressElem_display (e : Elem) :
    (suppressElem e).display =
      (if overlaySel e then "none".toList else e.display) := by
  unfold suppressElem
  simp only [unfix_display, hideOverlay_display, pauseCarousel_display,
    rewriteEmbed_display, pauseVideo_display]
  rw [overlaySel_congr
    (x := pauseCarousel (rewriteEmbed (pauseVideo e))) (y := e) (by simp)]

lemma suppressElem_position (e : Elem) :
    (suppressElem e).position =
      (if fixedSel e &&
          (e.position == "fixed".toList || e.position == "sticky".toList)
       then "absolute".toList else e.position) := by
  unfold suppressElem
  rw [unfix_position]
  rw [fixedSel_congr
    (x := hideOverlay (pauseCarousel (rewriteEmbed (pauseVideo e)))) (y := e)
    (by simp) (by simp)]
  simp

/-- The fixed/sticky conversion is safe to repeat: a second run leaves
every element's position unchanged (after the first run a converted
element's position reads `absolute`, which the selector's position check
rejects). -/
lemma suppressElem_position_idem (e : Elem) :
    (suppressElem (suppressElem e)).position = (suppressElem e).position := by
  rw [suppressElem_position (suppressElem e),
    fixedSel_congr (x := suppressElem e) (y := e) (by simp) (by simp)]
  by_cases hC : (fixedSel e &&
      (e.position == "fixed".toList || e.position == "sticky".toList)) = true
  · rw [suppressElem_position e, if_pos hC]
    have h1 : (("absolute".toList == "fixed".toList) : Bool) = false := by decide
    have h2 : (("absolute".toList == "sticky".toList) : Bool) = false := by decide
    simp [h1, h2]
  · rw [suppressElem_position e, if_neg hC, if_neg hC]

/-- On an element outside the embed selector, one suppression run is as
good as two. -/
lemma suppressElem_idem (e : Elem) (h : embedSel e = false) :
    suppressElem (suppressElem e) = suppressElem e := by
  have hsrc : (suppressElem e).src = e.src := suppressElem_src e h
  have hsel : embedSel (suppressElem e) = false :=
    (embedSel_congr (suppressElem_tag e) hsrc).trans h
  apply Elem.ext
  · simp
  · simp
  · rw [suppressElem_src (suppressElem e) hsel, hsrc]
  · rw [suppressElem_paused (suppressElem e), suppressElem_paused e,
      suppressElem_tag e]
    by_cases hv : (e.tag == HTag.video) = true
    · simp [hv]
    · simp [hv]
  · rw [suppressElem_currentTime (suppressElem e), suppressElem_currentTime e,
      suppressElem_tag e]
    by_cases hv : (e.tag == HTag.video) = true
    · simp [hv]
    · simp [hv]
  · rw [suppressElem_animPlay (suppressElem e), suppressElem_animPlay e,
      carouselSel_congr (x := suppressElem e) (y := e) (by simp)]
    by_cases hc : carouselSel e = true
    · simp [hc]
    · simp [hc]
  · rw [suppressElem_display (suppressElem e), suppressElem_display e,
      overlaySel_congr (x := suppressElem e) (y := e) (by simp)]
    by_cases hc : overlaySel e = true
    · simp [hc]
    · simp [hc]
  · exact suppressElem_position_idem e

/-- Pointwise-equal functions map lists identically. -/
lemma mapCongrOn {α β : Type} (f g : α → β) :
    ∀ l : List α, (∀ a ∈ l, f a = g a) → l.map f = l.map g
  | [], _ => rfl
  | a :: l, h => by
    simp only [List.map_cons]
    rw [h a (by simp), mapCongrOn f g l (fun x hx => h x (by simp [hx]))]

/-- A DOM holding a YouTube embed iframe. -/
def ytDom : Dom where
  elems := [{ tag := HTag.iframe, className := [],
              src := "youtube/e".toList,
              paused := false, currentTime := 0,
              animPlay := [], display := [],
              position := [] }]
  sheets := []

set_option maxHeartbeats 2000000 in
/-- Counterexample to C8 as stated: on a DOM containing a YouTube embed
iframe, a second invocation of the suppression pass appends
`&autoplay=0&controls=0` to the iframe `src` once more, changing the
visible DOM state again — the pass is not idempotent. -/
theorem media_suppressor_not_idempotent_counterexample :
    render (pause_videos_and_animations (pause_videos_and_animations ytDom)) ≠
      render (pause_videos_and_animations ytDom) := by
  decide

/-- C8 (amended): the fixed/sticky-to-absolute conversion is safe to
repeat on every DOM (second run changes no element's position), and on
any DOM with no YouTube/Vimeo embed iframes the whole pass is idempotent
up to visible state; only the embed-URL rewrite (which appends autoplay
parameters on each run) breaks idempotence. -/
theorem media_suppressor_idempotent (d : Dom) :
    ((pause_videos_and_animations (pause_videos_and_animations d)).elems.map
        Elem.position =
      (pause_videos_and_animations d).elems.map Elem.position) ∧
    ((∀ e ∈ d.elems, embedSel e = false) →
      render (pause_videos_and_animations (pause_videos_and_animations d)) =
        render (pause_videos_and_animations d)) := by
  constructor
  · simp only [pause_videos_and_animations, List.map_map, Function.comp_def]
    exact mapCongrOn
      (fun e => (suppressElem (suppressElem e)).position)
      (fun e => (suppressElem e).position)
      d.elems (fun e _ => suppressElem_position_idem e)
  · intro h
    have helems : (pause_videos_and_animations
        (pause_videos_and_animations d)).elems =
        (pause_videos_and_animations d).elems := by
      simp only [pause_videos_and_animations, List.map_map, Function.comp_def]
      exact mapCongrOn (fun e => suppressElem (suppressElem e)) suppressElem
        d.elems (fun e he => suppressElem_idem e (h e he))
    have hs1 : decide (freezeRule ∈ (pause_videos_and_animations
        (pause_videos_and_animations d)).sheets) = true := by
      simp [pause_videos_and_animations]
    have hs2 : decide (freezeRule ∈ (pause_videos_and_animations d).sheets) =
        true := by
      simp [pause_videos_and_animations]
    unfold render
    rw [helems, hs1, hs2]

/-- A DOM with a video and a fixed site header, but no embed iframes. -/
def plainDom : Dom where
  elems := [{ tag := HTag.video, className := [], src := [],
              paused := false, currentTime := 5,
              animPlay := "running".toList, display := "block".toList,
              position := "static".toList },
            { tag := HTag.header, className := "site-header fixed".toList,
              src := [], paused := false, currentTime := 0,
              animPlay := "running".toList, display := "block".toList,
              position := "fixed".toList }]
  sheets := []

/-- Witness for C8 (amended) on a concrete embed-free DOM. -/
theorem media_suppressor_idempotent_witness :
    embedSel { tag := HTag.header, className := "site-header fixed".toList,
               src := [], paused := false, currentTime := 0,
               animPlay := "running".toList, display := "block".toList,
               position := "fixed".toList } = false ∧
    render (pause_videos_and_animations (pause_videos_and_animations plainDom)) =
      render (pause_videos_and_animations plainDom) :=
  ⟨by decide, (media_suppressor_idempotent plainDom).2 (by decide)⟩

/-! ## `clean_domain_name` (src/utils.py:46-64) -/

/-- C10: every character of `clean_domain_name`'s output lies in
`a-z`, `0-9`, `.`, `-`, `_`: the final substitution keeps exactly
`[a-z0-9.-]` and maps every other character to `_`, so the result is
safe as a directory name. -/
theorem clean_domain_name_charset (d : List Char) (c : Char)
    (hc : c ∈ clean_domain_name d) :
    ('a' ≤ c ∧ c ≤ 'z') ∨ ('0' ≤ c ∧ c ≤ '9') ∨ c = '.' ∨ c = '-' ∨ c = '_' := by
  unfold clean_domain_name at hc
  simp only [List.mem_map] at hc
  obtain ⟨b, -, hb⟩ := hc
  by_cases h : domainCharKept b = true
  · rw [if_pos h] at hb
    subst hb
    unfold domainCharKept at h
    simp only [Bool.or_eq_true, Bool.and_eq_true, decide_eq_true_eq,
      beq_iff_eq] at h
    tauto
  · rw [if_neg h] at hb
    subst hb
    tauto

/-- Witness for C10: the `?` of a concrete input is replaced by `_`,
which lies in the allowed character set. -/
theorem clean_domain_name_charset_witness :
    '_' ∈ clean_domain_name "A?".toList ∧
    (('a' ≤ '_' ∧ '_' ≤ 'z') ∨ ('0' ≤ '_' ∧ '_' ≤ '9') ∨ '_' = '.' ∨
      '_' = '-' ∨ '_' = '_') :=
  ⟨by decide, clean_domain_name_charset "A?".toList '_' (by decide)⟩
